import Mathlib

/-!
Verification of the VWork desktop shell (src-tauri/src/lib.rs): the sidecar
lifecycle and readiness coordinator.  Times are modelled in milliseconds as
naturals; the environment supplies, for each connect attempt, whether it
succeeds and how long it takes (capped at the 1 s per-attempt budget of
`TcpStream::connect_timeout`).
-/

namespace VWork

/-- Port the sidecar server runs on (`DEFAULT_PORT` in lib.rs). -/
def DEFAULT_PORT : Nat := 3141

/-- The timeout passed to `wait_for_server` at the call site in `run`
(`Duration::from_secs(15)`), in milliseconds. -/
def defaultTimeoutMs : Nat := 15000

/-- The loopback address string the readiness probe connects to
(lib.rs line 29). -/
def probeAddr (port : Nat) : String := "127.0.0.1:" ++ toString port

/-- Observable actions of the readiness poller. -/
inductive PollAction where
  | connectAttempt (addr : String) (ok : Bool) (dur : Nat)
  | closeSocket
  | sleep (ms : Nat)
  | httpRequest
  deriving DecidableEq, Repr

/-- Environment of the poller: for attempt `i`, whether the TCP connect
succeeds and how long it takes (in ms; the poller caps it at 1000). -/
structure PollEnv where
  connectOk : Nat → Bool
  connectDur : Nat → Nat

/-- Duration of attempt `i`: `connect_timeout` returns within its 1 s budget. -/
def attemptDur (env : PollEnv) (i : Nat) : Nat := min (env.connectDur i) 1000

/-- The error string built by `wait_for_server` on timeout (lib.rs 40-44);
the URL with `/api/config` is used only here. -/
def timeoutMsg (timeoutMs port : Nat) : String :=
  "VWork server did not start within " ++ toString (timeoutMs / 1000) ++
    "s (tried http://127.0.0.1:" ++ toString port ++ "/api/config)"

/-- Result of one run of the poller: the returned value, the total elapsed
time at return, and the trace of observable actions. -/
structure PollRun where
  result : Except String Unit
  finalElapsed : Nat
  trace : List PollAction
  deriving Repr

/-- The `while start.elapsed() < timeout` loop of `wait_for_server`
(lib.rs 25-38).  `i` is the attempt index, `elapsed` the time since `start`.
A successful connect drops the stream, sleeps 300 ms and returns `Ok`;
a failed one sleeps 200 ms and retries. -/
def waitLoop (env : PollEnv) (timeoutMs port : Nat) (i elapsed : Nat) : PollRun :=
  if h : elapsed < timeoutMs then
    let d := attemptDur env i
    if env.connectOk i then
      { result := Except.ok (), finalElapsed := elapsed + d + 300,
        trace := [PollAction.connectAttempt (probeAddr port) true d,
                  PollAction.closeSocket, PollAction.sleep 300] }
    else
      let r := waitLoop env timeoutMs port (i + 1) (elapsed + d + 200)
      { result := r.result, finalElapsed := r.finalElapsed,
        trace := PollAction.connectAttempt (probeAddr port) false d ::
                 PollAction.sleep 200 :: r.trace }
  else
    { result := Except.error (timeoutMsg timeoutMs port),
      finalElapsed := elapsed, trace := [] }
termination_by timeoutMs - elapsed
decreasing_by omega

/-- `wait_for_server(port, timeout)` (lib.rs 20-45). -/
def wait_for_server (env : PollEnv) (port timeoutMs : Nat) : PollRun :=
  waitLoop env timeoutMs port 0 0

/-- Elapsed time at the `j`-th loop-head check counted from attempt `i`,
assuming every attempt so far failed (attempt duration plus the 200 ms
retry sleep each). -/
def headFrom (env : PollEnv) (i : Nat) : Nat → Nat
  | 0 => 0
  | j + 1 => attemptDur env i + 200 + headFrom env (i + 1) j

/-- Whether an `Except` is an error. -/
def isErr : Except String Unit → Bool
  | Except.error _ => true
  | Except.ok _ => false

/-- Grammar of poller traces: zero or more failed attempts each followed by
the 200 ms retry sleep, ended by either nothing (timeout) or a successful
attempt, the socket close, and the 300 ms settle sleep. -/
inductive PollTrace (port : Nat) : List PollAction → Prop where
  | timeout : PollTrace port []
  | accept (d : Nat) (hd : d ≤ 1000) :
      PollTrace port [PollAction.connectAttempt (probeAddr port) true d,
        PollAction.closeSocket, PollAction.sleep 300]
  | retry (d : Nat) (hd : d ≤ 1000) (rest : List PollAction)
      (hr : PollTrace port rest) :
      PollTrace port (PollAction.connectAttempt (probeAddr port) false d ::
        PollAction.sleep 200 :: rest)

/-- Environment in which no connect attempt ever succeeds. -/
def envNever : PollEnv := { connectOk := fun _ => false, connectDur := fun _ => 0 }

/-- Environment whose single attempt takes the full 1 s budget and fails. -/
def envSlowFail : PollEnv := { connectOk := fun _ => false, connectDur := fun _ => 1000 }

/-- Environment of a `kill_sidecar` call: whether `state.0.lock()` returns
`Ok` (it fails only when the mutex is poisoned), and whether `child.kill()`
would return an error for a given child. -/
structure KillEnv where
  lockOk : Bool
  killFails : Nat → Bool

/-- Observable outcome of one `kill_sidecar` call (lib.rs 88-94): the slot
after the call, the children on which `kill()` was invoked, the children
reaped as a consequence, and the log lines emitted by the call.  The kill
result is discarded by `let _ = child.kill()`, so no log line is produced,
even when the kill fails.  `kill_sidecar` itself never waits on the child;
the reap is performed by the shell plugin's per-child wait thread, which
waits for the exit of each spawned child exactly once (per the spec, the
platform API reaps where required). -/
structure KillOutcome where
  slot : Option Nat
  kills : List Nat
  reaps : List Nat
  logs : List String
  deriving DecidableEq, Repr

/-- `kill_sidecar` (lib.rs 88-94): lock the slot, `take()` the child out,
and if one was present invoke `kill()` on it, discarding the result. -/
def kill_sidecar (env : KillEnv) (slot : Option Nat) : KillOutcome :=
  if env.lockOk then
    match slot with
    | some c => { slot := none, kills := [c], reaps := [c], logs := [] }
    | none => { slot := none, kills := [], reaps := [], logs := [] }
  else { slot := slot, kills := [], reaps := [], logs := [] }

/-- Accumulated state across repeated `kill_sidecar` calls. -/
structure TermState where
  slot : Option Nat
  kills : List Nat
  reaps : List Nat
  logs : List String
  deriving DecidableEq, Repr

/-- One `kill_sidecar` call on the accumulated state. -/
def terminateStep (env : KillEnv) (s : TermState) : TermState :=
  let o := kill_sidecar env s.slot
  { slot := o.slot, kills := s.kills ++ o.kills,
    reaps := s.reaps ++ o.reaps, logs := s.logs ++ o.logs }

/-- Primitive operations inside `kill_sidecar`, in order of occurrence. -/
inductive LockOp where
  | lock
  | takeChild
  | killSignal (c : Nat)
  | unlock
  deriving DecidableEq, Repr

/-- Operation trace of `kill_sidecar` (lib.rs 88-94).  The `MutexGuard`
produced by `state.0.lock()` lives until the end of the `if let Ok` block,
so the `kill()` call occurs before the guard is released. -/
def kill_sidecar_ops (env : KillEnv) (slot : Option Nat) : List LockOp :=
  if env.lockOk then
    match slot with
    | some c => [LockOp.lock, LockOp.takeChild, LockOp.killSignal c, LockOp.unlock]
    | none => [LockOp.lock, LockOp.takeChild, LockOp.unlock]
  else []

/-- Whether some kill signal in the trace is sent while the lock is held
(`d` counts the locks currently held). -/
def heldDuringKill : List LockOp → Nat → Bool
  | [], _ => false
  | LockOp.lock :: rest, d => heldDuringKill rest (d + 1)
  | LockOp.unlock :: rest, d => heldDuringKill rest (d - 1)
  | LockOp.killSignal _ :: rest, d => decide (0 < d) || heldDuringKill rest d
  | LockOp.takeChild :: rest, d => heldDuringKill rest d

/-- A `KillEnv` whose lock succeeds and whose kills succeed. -/
def envKill : KillEnv := { lockOk := true, killFails := fun _ => false }

/-- A `KillEnv` whose lock succeeds but whose kills fail. -/
def envKillFail : KillEnv := { lockOk := true, killFails := fun _ => true }

/-- Events received from the sidecar's line-oriented event stream
(`CommandEvent` of the shell plugin). -/
inductive CommandEvent where
  | stderrLine (s : String)
  | stdoutLine (s : String)
  | errorEvent (s : String)
  | terminated (status : String)
  | otherEvent
  deriving DecidableEq, Repr

/-- The host's output streams. -/
inductive HostStream where
  | stdout
  | stderr
  deriving DecidableEq, Repr

/-- The forwarder task spawned by `spawn_sidecar` (lib.rs 60-82): each
received event is matched; a stderr line is written verbatim with
`eprint!`, a stdout line is written with `eprint!` prefixed by
`[sidecar stdout] `, error and termination events are logged with
`eprintln!`, and the receive loop breaks on `Terminated`. -/
def forwardEvents : List CommandEvent → List (HostStream × String)
  | [] => []
  | CommandEvent.stderrLine s :: rest =>
      (HostStream.stderr, s) :: forwardEvents rest
  | CommandEvent.stdoutLine s :: rest =>
      (HostStream.stderr, "[sidecar stdout] " ++ s) :: forwardEvents rest
  | CommandEvent.errorEvent s :: rest =>
      (HostStream.stderr, "[sidecar error] " ++ s ++ "\n") :: forwardEvents rest
  | CommandEvent.terminated st :: _ =>
      [(HostStream.stderr, "[sidecar] process exited: " ++ st ++ "\n")]
  | CommandEvent.otherEvent :: rest => forwardEvents rest

/-- Whether the webview window lookup succeeds, and whether `w.navigate`
would return an error. -/
structure NavEnv where
  windowExists : Bool
  navigateFails : Bool

/-- Observable outcome of the background readiness thread. -/
structure NavOutcome where
  logs : List String
  navigations : List String
  panicked : Bool
  deriving DecidableEq, Repr

/-- The URL string handed to `navigate` (lib.rs 309). -/
def navUrl (port : Nat) : String := "http://localhost:" ++ toString port

/-- Body of the background thread spawned in setup (lib.rs 303-317): wait
for the server; on `Ok` log readiness and, if the main window still exists,
navigate it to `navUrl` — the result of `w.navigate(...)` is discarded by
`let _ =`, so a navigation failure has no observable effect and no log line,
and a missing window is skipped silently.  On `Err` log the error.  The URL
is the fixed string `navUrl DEFAULT_PORT`, which parses, so the
`url.parse().unwrap()` on this path never panics. -/
def readinessThread (env : PollEnv) (nenv : NavEnv) : NavOutcome :=
  match (wait_for_server env DEFAULT_PORT defaultTimeoutMs).result with
  | Except.ok _ =>
      if nenv.windowExists then
        { logs := ["[vwork] Server is ready!"],
          navigations := [navUrl DEFAULT_PORT], panicked := false }
      else
        { logs := ["[vwork] Server is ready!"],
          navigations := [], panicked := false }
  | Except.error e =>
      { logs := ["[vwork] " ++ e], navigations := [], panicked := false }

/-- Environment for setup: the outcome of `spawn_sidecar` (the spawned
child's id, or the error string). -/
structure SpawnEnv where
  spawnResult : Except String Nat

/-- State produced by the setup closure (lib.rs 283-322). -/
structure SetupState where
  slot : Option Nat
  logs : List String
  readinessThreads : Nat
  deriving DecidableEq, Repr

/-- The setup closure (lib.rs 283-322): log the startup line; on a
successful spawn store the child in the slot, on failure log the error and
continue; in both cases spawn exactly one background readiness thread. -/
def setup (senv : SpawnEnv) : SetupState :=
  match senv.spawnResult with
  | Except.ok child =>
      { slot := some child,
        logs := ["[vwork] Starting sidecar on port " ++
                   toString DEFAULT_PORT ++ "...",
                 "[vwork] Sidecar spawned, waiting for server..."],
        readinessThreads := 1 }
  | Except.error e =>
      { slot := none,
        logs := ["[vwork] Starting sidecar on port " ++
                   toString DEFAULT_PORT ++ "...",
                 "[vwork] Failed to spawn sidecar: " ++ e],
        readinessThreads := 1 }

/-- Events the host dispatches while running. -/
inductive HostEvent where
  | storeChild (c : Nat)
  | menuQuit
  | menuOpen
  | exitRequested
  deriving DecidableEq, Repr

/-- Host state visible to the exit paths. -/
structure HostState where
  slot : Option Nat
  killSignals : List Nat
  exited : Bool
  deriving DecidableEq, Repr

/-- One step of the host's event handling.  `storeChild` is the slot
assignment in setup (lib.rs 292); `menuQuit` is the tray "quit" handler
(lib.rs 151-157): `kill_sidecar` then `app.exit(0)`; `exitRequested` is the
`RunEvent::ExitRequested` arm of the run callback (lib.rs 336-343):
`kill_sidecar`.  `menuOpen` stands for the handlers that do not touch the
slot. -/
def hostStep (env : KillEnv) (s : HostState) : HostEvent → HostState
  | HostEvent.storeChild c => { s with slot := some c }
  | HostEvent.menuQuit =>
      let o := kill_sidecar env s.slot
      { slot := o.slot, killSignals := s.killSignals ++ o.kills, exited := true }
  | HostEvent.menuOpen => s
  | HostEvent.exitRequested =>
      let o := kill_sidecar env s.slot
      { slot := o.slot, killSignals := s.killSignals ++ o.kills,
        exited := s.exited }

/-- The host's run loop over a sequence of dispatched events, started from
the empty slot. -/
def hostRun (env : KillEnv) (events : List HostEvent) : HostState :=
  events.foldl (hostStep env) { slot := none, killSignals := [], exited := false }

/-- Environment in which the first connect attempt succeeds instantly. -/
def envOkNow : PollEnv := { connectOk := fun _ => true, connectDur := fun _ => 0 }

theorem waitLoop_err_iff (env : PollEnv) (T port : Nat) :
    ∀ i e, isErr (waitLoop env T port i e).result = true ↔
      ∀ j, e + headFrom env i j < T → env.connectOk (i + j) = false := by
  intro i e
  induction i, e using waitLoop.induct env T port with
  | case1 i e he hc =>
      unfold waitLoop
      simp only [dif_pos he, if_pos hc, isErr]
      constructor
      · intro h; cases h
      · intro h
        have := h 0 (by simpa [headFrom] using he)
        simp [hc] at this
  | case2 i e he d hc ih =>
      unfold waitLoop
      simp only [dif_pos he, if_neg hc]
      rw [ih]
      constructor
      · intro H j hj
        cases j with
        | zero => simpa using Bool.eq_false_iff.mpr hc
        | succ k =>
            have hk : e + d + 200 + headFrom env (i + 1) k < T := by
              simp only [headFrom] at hj; omega
            have := H k hk
            simpa [Nat.add_comm, Nat.add_assoc, Nat.add_left_comm] using this
      · intro H j hj
        have hj1 : e + headFrom env i (j + 1) < T := by
          simp only [headFrom]; omega
        have := H (j + 1) hj1
        simpa [Nat.add_comm, Nat.add_assoc, Nat.add_left_comm] using this
  | case3 i e he =>
      unfold waitLoop
      simp only [dif_neg he, isErr]
      constructor
      · intro _ j hj; exfalso; omega
      · intro _; trivial

theorem waitLoop_err_msg (env : PollEnv) (T port : Nat) :
    ∀ i e m, (waitLoop env T port i e).result = Except.error m →
      m = timeoutMsg T port ∧ T ≤ (waitLoop env T port i e).finalElapsed := by
  intro i e
  induction i, e using waitLoop.induct env T port with
  | case1 i e he hc =>
      unfold waitLoop
      simp [dif_pos he, if_pos hc]
  | case2 i e he d hc ih =>
      unfold waitLoop
      simp only [dif_pos he, if_neg hc]
      exact ih
  | case3 i e he =>
      unfold waitLoop
      simp only [dif_neg he]
      intro m hm
      refine ⟨by simpa using hm.symm, by omega⟩

theorem waitLoop_ok_shape (env : PollEnv) (T port : Nat) :
    ∀ i e, (waitLoop env T port i e).result = Except.ok () →
      ∃ hd d pre, hd < T ∧ d ≤ 1000 ∧
        (waitLoop env T port i e).finalElapsed = hd + d + 300 ∧
        (waitLoop env T port i e).trace = pre ++
          [PollAction.connectAttempt (probeAddr port) true d,
           PollAction.closeSocket, PollAction.sleep 300] := by
  intro i e
  induction i, e using waitLoop.induct env T port with
  | case1 i e he hc =>
      unfold waitLoop
      simp only [dif_pos he, if_pos hc]
      intro _
      exact ⟨e, attemptDur env i, [], he, Nat.min_le_right _ _, rfl, rfl⟩
  | case2 i e he d hc ih =>
      unfold waitLoop
      simp only [dif_pos he, if_neg hc]
      intro h
      obtain ⟨hd, dd, pre, h1, h2, h3, h4⟩ := ih h
      exact ⟨hd, dd, PollAction.connectAttempt (probeAddr port) false d ::
        PollAction.sleep 200 :: pre, h1, h2, h3, by simp [h4]⟩
  | case3 i e he =>
      unfold waitLoop
      simp [dif_neg he]

theorem waitLoop_no_http (env : PollEnv) (T port : Nat) :
    ∀ i e, PollAction.httpRequest ∉ (waitLoop env T port i e).trace := by
  intro i e
  induction i, e using waitLoop.induct env T port with
  | case1 i e he hc =>
      unfold waitLoop
      simp [dif_pos he, if_pos hc]
  | case2 i e he d hc ih =>
      unfold waitLoop
      simp only [dif_pos he, if_neg hc]
      simpa using ih
  | case3 i e he =>
      unfold waitLoop
      simp [dif_neg he]

theorem waitLoop_trace (env : PollEnv) (T port : Nat) :
    ∀ i e, PollTrace port (waitLoop env T port i e).trace := by
  intro i e
  induction i, e using waitLoop.induct env T port with
  | case1 i e he hc =>
      unfold waitLoop
      simp only [dif_pos he, if_pos hc]
      exact PollTrace.accept _ (Nat.min_le_right _ _)
  | case2 i e he d hc ih =>
      unfold waitLoop
      simp only [dif_pos he, if_neg hc]
      exact PollTrace.retry _ (Nat.min_le_right _ _) _ ih
  | case3 i e he =>
      unfold waitLoop
      simp only [dif_neg he]
      exact PollTrace.timeout

theorem waitLoop_elapsed_le (env : PollEnv) (T port : Nat) :
    ∀ i e, (waitLoop env T port i e).finalElapsed ≤ max e (T + 1299) := by
  intro i e
  induction i, e using waitLoop.induct env T port with
  | case1 i e he hc =>
      unfold waitLoop
      simp only [dif_pos he, if_pos hc]
      have : attemptDur env i ≤ 1000 := Nat.min_le_right _ _
      simp only [le_max_iff]; omega
  | case2 i e he d hc ih =>
      have hdef : d = attemptDur env i := rfl
      unfold waitLoop
      simp only [dif_pos he, if_neg hc, ← hdef]
      have hd : d ≤ 1000 := by rw [hdef]; exact Nat.min_le_right _ _
      have h2 := ih
      simp only [le_max_iff] at h2 ⊢
      omega
  | case3 i e he =>
      unfold waitLoop
      simp only [dif_neg he]
      exact le_max_left _ _

/-- With `envOkNow` the poller returns `Ok`. -/
theorem envOkNow_ready :
    (wait_for_server envOkNow DEFAULT_PORT defaultTimeoutMs).result =
      Except.ok () := by
  simp [wait_for_server, waitLoop, envOkNow, attemptDur, DEFAULT_PORT,
    defaultTimeoutMs]

/-- Every output of the forwarder goes to the host's stderr stream. -/
theorem forwardEvents_stderr_only :
    ∀ (evs : List CommandEvent) (p : HostStream × String),
      p ∈ forwardEvents evs → p.1 = HostStream.stderr := by
  intro evs
  induction evs with
  | nil => intro p hp; simp [forwardEvents] at hp
  | cons e rest ih =>
      intro p hp
      cases e with
      | stderrLine s =>
          simp only [forwardEvents, List.mem_cons] at hp
          rcases hp with rfl | hp
          · rfl
          · exact ih p hp
      | stdoutLine s =>
          simp only [forwardEvents, List.mem_cons] at hp
          rcases hp with rfl | hp
          · rfl
          · exact ih p hp
      | errorEvent s =>
          simp only [forwardEvents, List.mem_cons] at hp
          rcases hp with rfl | hp
          · rfl
          · exact ih p hp
      | terminated st =>
          simp only [forwardEvents, List.mem_cons, List.not_mem_nil,
            or_false] at hp
          subst hp; rfl
      | otherEvent =>
          simp only [forwardEvents] at hp
          exact ih p hp

/-- Every connect attempt in a poller trace probes the loopback address of
the given port. -/
theorem pollTrace_addr {port : Nat} {tr : List PollAction}
    (h : PollTrace port tr) :
    ∀ a b d, PollAction.connectAttempt a b d ∈ tr → a = probeAddr port := by
  induction h with
  | timeout => intro a b d hmem; simp at hmem
  | accept d0 hd =>
      intro a b d hmem
      simp only [List.mem_cons, List.not_mem_nil, or_false] at hmem
      rcases hmem with hmem | hmem | hmem
      · exact (PollAction.connectAttempt.injEq _ _ _ _ _ _).mp hmem |>.1
      · cases hmem
      · cases hmem
  | retry d0 hd rest hr ih =>
      intro a b d hmem
      simp only [List.mem_cons] at hmem
      rcases hmem with hmem | hmem | hmem
      · exact (PollAction.connectAttempt.injEq _ _ _ _ _ _).mp hmem |>.1
      · cases hmem
      · exact ih a b d hmem

/-- Invariant of the host's event fold: starting from a state whose slot is
empty or holds the unique spawned child, the slot stays in that set, kill
signals are never lost, a child in the slot ends up killed or still in the
slot, and every stored child ends up killed or still in the slot. -/
theorem hostFold_inv (env : KillEnv) (hlock : env.lockOk = true) (c₀ : Nat) :
    ∀ (tr : List HostEvent) (s : HostState),
      (∀ c, HostEvent.storeChild c ∈ tr → c = c₀) →
      (s.slot = none ∨ s.slot = some c₀) →
      ((tr.foldl (hostStep env) s).slot = none ∨
        (tr.foldl (hostStep env) s).slot = some c₀) ∧
      (∀ x, x ∈ s.killSignals → x ∈ (tr.foldl (hostStep env) s).killSignals) ∧
      (s.slot = some c₀ → c₀ ∈ (tr.foldl (hostStep env) s).killSignals ∨
        (tr.foldl (hostStep env) s).slot = some c₀) ∧
      (∀ c, HostEvent.storeChild c ∈ tr →
        c ∈ (tr.foldl (hostStep env) s).killSignals ∨
        (tr.foldl (hostStep env) s).slot = some c) := by
  intro tr
  induction tr with
  | nil =>
      intro s hsingle hslot
      refine ⟨hslot, fun x hx => hx, fun h => Or.inr h, ?_⟩
      intro c hc
      simp at hc
  | cons e rest ih =>
      intro s hsingle hslot
      have hsingle2 : ∀ c, HostEvent.storeChild c ∈ rest → c = c₀ :=
        fun c hc => hsingle c (List.mem_cons_of_mem _ hc)
      cases e with
      | storeChild c =>
          have hc : c = c₀ := hsingle c (List.mem_cons_self _ _)
          subst hc
          simp only [List.foldl_cons, hostStep]
          obtain ⟨h1, h2, h3, h4⟩ :=
            ih { s with slot := some c } hsingle2 (Or.inr rfl)
          refine ⟨h1, h2, fun _ => h3 rfl, ?_⟩
          intro c2 hc2
          rcases List.mem_cons.mp hc2 with heq | hmem
          · cases heq
            exact h3 rfl
          · exact h4 c2 hmem
      | menuOpen =>
          simp only [List.foldl_cons, hostStep]
          obtain ⟨h1, h2, h3, h4⟩ := ih s hsingle2 hslot
          refine ⟨h1, h2, h3, ?_⟩
          intro c hc
          rcases List.mem_cons.mp hc with heq | hmem
          · cases heq
          · exact h4 c hmem
      | menuQuit =>
          rcases hslot with hs | hs <;>
            simp only [List.foldl_cons, hostStep, kill_sidecar, hlock,
              if_true, hs]
          · obtain ⟨h1, h2, h3, h4⟩ := ih
              { slot := none, killSignals := s.killSignals ++ [],
                exited := true } hsingle2 (Or.inl rfl)
            refine ⟨h1, fun x hx => h2 x (by simp [hx]), ?_, ?_⟩
            · intro habs
              exact Option.noConfusion habs
            · intro c hc
              rcases List.mem_cons.mp hc with heq | hmem
              · cases heq
              · exact h4 c hmem
          · obtain ⟨h1, h2, h3, h4⟩ := ih
              { slot := none, killSignals := s.killSignals ++ [c₀],
                exited := true } hsingle2 (Or.inl rfl)
            refine ⟨h1, fun x hx => h2 x (by simp [hx]), ?_, ?_⟩
            · intro _
              exact Or.inl (h2 c₀ (by simp))
            · intro c hc
              rcases List.mem_cons.mp hc with heq | hmem
              · cases heq
              · exact h4 c hmem
      | exitRequested =>
          rcases hslot with hs | hs <;>
            simp only [List.foldl_cons, hostStep, kill_sidecar, hlock,
              if_true, hs]
          · obtain ⟨h1, h2, h3, h4⟩ := ih
              { slot := none, killSignals := s.killSignals ++ [],
                exited := s.exited } hsingle2 (Or.inl rfl)
            refine ⟨h1, fun x hx => h2 x (by simp [hx]), ?_, ?_⟩
            · intro habs
              exact Option.noConfusion habs
            · intro c hc
              rcases List.mem_cons.mp hc with heq | hmem
              · cases heq
              · exact h4 c hmem
          · obtain ⟨h1, h2, h3, h4⟩ := ih
              { slot := none, killSignals := s.killSignals ++ [c₀],
                exited := s.exited } hsingle2 (Or.inl rfl)
            refine ⟨h1, fun x hx => h2 x (by simp [hx]), ?_, ?_⟩
            · intro _
              exact Or.inl (h2 c₀ (by simp))
            · intro c hc
              rcases List.mem_cons.mp hc with heq | hmem
              · cases heq
              · exact h4 c hmem

/-- C1: `wait_for_server(P, T)` loops attempting a TCP connect to
`127.0.0.1:P` with a 1 s per-attempt budget; on success it closes the probe
socket, sleeps 300 ms, and returns `Ok`; on failure it sleeps 200 ms and
retries; it returns the timeout error exactly when the elapsed time since its
monotonic start reaches or exceeds `T` (15 s at the call site), and it never
issues an HTTP request. -/
theorem C1_readiness_poller (env : PollEnv) (port T : Nat) :
    PollAction.httpRequest ∉ (wait_for_server env port T).trace ∧
    PollTrace port (wait_for_server env port T).trace ∧
    ((wait_for_server env port T).result = Except.ok () →
      ∃ hd d pre, hd < T ∧ d ≤ 1000 ∧
        (wait_for_server env port T).finalElapsed = hd + d + 300 ∧
        (wait_for_server env port T).trace = pre ++
          [PollAction.connectAttempt (probeAddr port) true d,
           PollAction.closeSocket, PollAction.sleep 300]) ∧
    (isErr (wait_for_server env port T).result = true ↔
      ∀ j, headFrom env 0 j < T → env.connectOk j = false) ∧
    (isErr (wait_for_server env port T).result = true →
      T ≤ (wait_for_server env port T).finalElapsed) ∧
    (∀ m, (wait_for_server env port T).result = Except.error m →
      m = timeoutMsg T port) ∧
    defaultTimeoutMs = 15000 ∧ DEFAULT_PORT = 3141 := by
  refine ⟨waitLoop_no_http env T port 0 0, waitLoop_trace env T port 0 0,
    waitLoop_ok_shape env T port 0 0, ?_, ?_, ?_, rfl, rfl⟩
  · simpa using waitLoop_err_iff env T port 0 0
  · intro hErr
    cases hres : (wait_for_server env port T).result with
    | error m => exact (waitLoop_err_msg env T port 0 0 m hres).2
    | ok v => simp [isErr, hres] at hErr
  · intro m hm
    exact (waitLoop_err_msg env T port 0 0 m hm).1

/-- Witness for C1 at a concrete environment: with every connect failing and
a 500 ms timeout, the poller returns the timeout error at elapsed ≥ 500 ms. -/
theorem C1_readiness_poller_witness :
    isErr (wait_for_server envNever 3141 500).result = true ∧
    500 ≤ (wait_for_server envNever 3141 500).finalElapsed := by
  have h := C1_readiness_poller envNever 3141 500
  have hErr : isErr (wait_for_server envNever 3141 500).result = true :=
    h.2.2.2.1.mpr (fun j _ => rfl)
  exact ⟨hErr, h.2.2.2.2.1 hErr⟩

/-- C2: for every execution path that terminates the host — the framework
delivers an `ExitRequested` run event on each such path, including the
tray-menu Quit path which also runs `kill_sidecar` itself before
`app.exit(0)` — by the time the run loop returns the slot is empty and the
previously-stored child, if any, has received a kill signal.  The trace may
interleave quit, open and the setup's store arbitrarily; at most one child
is ever stored per run. -/
theorem C2_no_leak_on_exit (env : KillEnv) (tr : List HostEvent) (c₀ : Nat)
    (hlock : env.lockOk = true)
    (hsingle : ∀ c, HostEvent.storeChild c ∈ tr → c = c₀) :
    (hostRun env (tr ++ [HostEvent.exitRequested])).slot = none ∧
    ∀ c, HostEvent.storeChild c ∈ tr →
      c ∈ (hostRun env (tr ++ [HostEvent.exitRequested])).killSignals := by
  unfold hostRun
  rw [List.foldl_append]
  obtain ⟨h1, h2, h3, h4⟩ := hostFold_inv env hlock c₀ tr
    { slot := none, killSignals := [], exited := false } hsingle (Or.inl rfl)
  constructor
  · rcases h1 with hs | hs <;>
      simp [List.foldl_cons, hostStep, kill_sidecar, hlock, hs]
  · intro c hc
    rcases h4 c hc with hk | hs
    · rcases h1 with h | h <;>
        simp only [List.foldl_cons, List.foldl_nil, hostStep, kill_sidecar,
          hlock, if_true, h] <;>
        simp [hk]
    · simp only [List.foldl_cons, List.foldl_nil, hostStep, kill_sidecar,
        hlock, if_true, hs]
      simp

/-- Witness for C2: a run that stores child 7, handles an unrelated menu
event, and then receives the exit-requested event, ends with an empty slot
and child 7 killed. -/
theorem C2_no_leak_on_exit_witness :
    (hostRun envKill ([HostEvent.storeChild 7, HostEvent.menuOpen] ++
      [HostEvent.exitRequested])).slot = none ∧
    7 ∈ (hostRun envKill ([HostEvent.storeChild 7, HostEvent.menuOpen] ++
      [HostEvent.exitRequested])).killSignals := by
  have h := C2_no_leak_on_exit envKill [HostEvent.storeChild 7,
    HostEvent.menuOpen] 7 rfl (by intro c hc; simp at hc; exact hc)
  exact ⟨h.1, h.2 7 (by simp)⟩

/-- C3: calling `kill_sidecar` k ≥ 1 times on a slot that initially holds
one child results in exactly one kill signal and exactly one reap; every
call after the first observes an empty slot and does nothing. -/
theorem C3_terminate_idempotent (env : KillEnv) (c k : Nat)
    (hlock : env.lockOk = true) (hk : 1 ≤ k) :
    (terminateStep env)^[k] ⟨some c, [], [], []⟩ = ⟨none, [c], [c], []⟩ ∧
    ((terminateStep env)^[k] ⟨some c, [], [], []⟩).slot = none ∧
    terminateStep env ((terminateStep env)^[k] ⟨some c, [], [], []⟩) =
      (terminateStep env)^[k] ⟨some c, [], [], []⟩ := by
  have hfix : ∀ s : TermState, s.slot = none → terminateStep env s = s := by
    intro s hs
    obtain ⟨sl, ks, rs, ls⟩ := s
    subst hs
    simp [terminateStep, kill_sidecar, hlock]
  have h1 : terminateStep env ⟨some c, [], [], []⟩ = ⟨none, [c], [c], []⟩ := by
    simp [terminateStep, kill_sidecar, hlock]
  obtain ⟨j, rfl⟩ : ∃ j, k = j + 1 := ⟨k - 1, by omega⟩
  have hiter : (terminateStep env)^[j + 1] ⟨some c, [], [], []⟩ =
      (terminateStep env)^[j] ⟨none, [c], [c], []⟩ := by
    rw [Function.iterate_succ_apply, h1]
  rw [hiter, Function.iterate_fixed (hfix _ rfl) j]
  exact ⟨rfl, rfl, hfix _ rfl⟩

/-- Witness for C3: two calls on a slot holding child 7 leave one kill, one
reap, and an empty slot. -/
theorem C3_terminate_idempotent_witness :
    (terminateStep envKill)^[2] ⟨some 7, [], [], []⟩ = ⟨none, [7], [7], []⟩ :=
  (C3_terminate_idempotent envKill 7 2 rfl (by omega)).1

/-- C4: the navigator runs at most once per host run — the setup closure
spawns exactly one readiness thread, and that thread's body navigates at
most once — only after `wait_for_server` has returned `Ok` on this run and
only if the main window still exists; the URL it loads is
`http://localhost:P` (host spelled "localhost") while the readiness probe
connects to `127.0.0.1:P`, for the same port `P = DEFAULT_PORT`. -/
theorem C4_navigate_implies_ready (env : PollEnv) (nenv : NavEnv)
    (senv : SpawnEnv) :
    (setup senv).readinessThreads = 1 ∧
    (readinessThread env nenv).navigations.length ≤ 1 ∧
    (∀ u, u ∈ (readinessThread env nenv).navigations →
      (wait_for_server env DEFAULT_PORT defaultTimeoutMs).result =
        Except.ok () ∧
      nenv.windowExists = true ∧ u = navUrl DEFAULT_PORT) ∧
    navUrl DEFAULT_PORT = "http://localhost:3141" ∧
    probeAddr DEFAULT_PORT = "127.0.0.1:3141" ∧
    (∀ a b d, PollAction.connectAttempt a b d ∈
        (wait_for_server env DEFAULT_PORT defaultTimeoutMs).trace →
      a = probeAddr DEFAULT_PORT) := by
  refine ⟨?_, ?_, ?_, by rfl, by rfl,
    pollTrace_addr (waitLoop_trace env defaultTimeoutMs DEFAULT_PORT 0 0)⟩
  · cases hs : senv.spawnResult <;> simp [setup, hs]
  · cases hres : (wait_for_server env DEFAULT_PORT defaultTimeoutMs).result with
    | ok v =>
        cases v
        by_cases hw : nenv.windowExists = true <;>
          simp [readinessThread, hres, hw]
    | error m => simp [readinessThread, hres]
  · intro u hu
    cases hres : (wait_for_server env DEFAULT_PORT defaultTimeoutMs).result with
    | ok v =>
        cases v
        by_cases hw : nenv.windowExists = true <;>
          simp [readinessThread, hres, hw] at hu
        · exact ⟨rfl, hw, hu⟩
    | error m => simp [readinessThread, hres] at hu

/-- Witness for C4: with an immediately-ready server and an existing main
window, the readiness result is `Ok` and the loaded URL is the localhost
one. -/
theorem C4_navigate_implies_ready_witness :
    (wait_for_server envOkNow DEFAULT_PORT defaultTimeoutMs).result =
      Except.ok () ∧
    navUrl DEFAULT_PORT = "http://localhost:3141" := by
  have h := C4_navigate_implies_ready envOkNow ⟨true, false⟩ ⟨Except.ok 1⟩
  have hmem : navUrl DEFAULT_PORT ∈
      (readinessThread envOkNow ⟨true, false⟩).navigations := by
    simp [readinessThread, envOkNow_ready]
  exact ⟨(h.2.2.1 _ hmem).1, h.2.2.2.1⟩

/-- C5 counterexample: with timeout `T = 100` ms and a first connect attempt
that exhausts its full 1 s budget, `wait_for_server` returns only at
1200 ms > `T` + 1000 ms, refuting the claimed `T` + 1 s bound. -/
theorem C5_counterexample_bound_exceeded :
    (wait_for_server envSlowFail 3141 100).finalElapsed = 1200 ∧
    100 + 1000 < (wait_for_server envSlowFail 3141 100).finalElapsed := by
  have : (wait_for_server envSlowFail 3141 100).finalElapsed = 1200 := by
    simp [wait_for_server, waitLoop, envSlowFail, attemptDur]
  exact ⟨this, by omega⟩

/-- C5 (amended): `wait_for_server(P, T)` returns within `T` + 1.3 s of its
start: the final in-flight connect attempt may run up to its 1 s per-attempt
budget past `T`, and it is followed by the 300 ms settle sleep (success) or
the 200 ms retry sleep (failure) before the function returns. -/
theorem C5_amended_bounded_startup (env : PollEnv) (port T : Nat) :
    (wait_for_server env port T).finalElapsed ≤ T + 1299 := by
  simpa using waitLoop_elapsed_le env T port 0 0

/-- C6 counterexample: when `child.kill()` fails, `kill_sidecar` emits no
log line at all — the failure is discarded by `let _ = child.kill()` — so
the claimed "a kill or reap syscall error is logged" is false (the kill is
still attempted and the slot still drained). -/
theorem C6_counterexample_silent_failure :
    envKillFail.killFails 5 = true ∧
    (kill_sidecar envKillFail (some 5)).kills = [5] ∧
    (kill_sidecar envKillFail (some 5)).slot = none ∧
    (kill_sidecar envKillFail (some 5)).logs = [] := by
  decide

/-- C6 (amended): when `kill_sidecar` finds a child in the slot, the kill is
attempted unconditionally and the slot is drained to `None` even when the
kill fails, but a kill error is silent: the result of `child.kill()` is
discarded and nothing is logged. -/
theorem C6_amended_unconditional_kill (env : KillEnv) (c : Nat)
    (hlock : env.lockOk = true) :
    (kill_sidecar env (some c)).kills = [c] ∧
    (kill_sidecar env (some c)).slot = none ∧
    (kill_sidecar env (some c)).logs = [] := by
  simp [kill_sidecar, hlock]

/-- Witness for the amended C6, with a child whose kill fails. -/
theorem C6_amended_unconditional_kill_witness :
    (kill_sidecar envKillFail (some 9)).kills = [9] ∧
    (kill_sidecar envKillFail (some 9)).slot = none ∧
    (kill_sidecar envKillFail (some 9)).logs = [] :=
  C6_amended_unconditional_kill envKillFail 9 rfl

/-- C7 counterexample: a standard-output line of the child is re-emitted on
the host's STDERR with the prefix `[sidecar stdout] `, not verbatim on the
host's standard output. -/
theorem C7_counterexample_stdout_redirected :
    forwardEvents [CommandEvent.stdoutLine "hello"] =
      [(HostStream.stderr, "[sidecar stdout] hello")] ∧
    forwardEvents [CommandEvent.stdoutLine "hello"] ≠
      [(HostStream.stdout, "hello")] := by
  decide

/-- C7 (amended): the forwarder re-emits every stderr line of the child
verbatim on the host's stderr; a stdout line of the child also goes to the
host's STDERR, prefixed with `[sidecar stdout] `; forwarding stops at the
`Terminated` event; nothing is ever written to the host's stdout. -/
theorem C7_amended_forwarding (s : String) (rest : List CommandEvent) :
    forwardEvents (CommandEvent.stderrLine s :: rest) =
      (HostStream.stderr, s) :: forwardEvents rest ∧
    forwardEvents (CommandEvent.stdoutLine s :: rest) =
      (HostStream.stderr, "[sidecar stdout] " ++ s) :: forwardEvents rest ∧
    forwardEvents (CommandEvent.terminated s :: rest) =
      [(HostStream.stderr, "[sidecar] process exited: " ++ s ++ "\n")] ∧
    ∀ (evs : List CommandEvent) (p : HostStream × String),
      p ∈ forwardEvents evs → p.1 = HostStream.stderr :=
  ⟨rfl, rfl, rfl, forwardEvents_stderr_only⟩

/-- Witness for the amended C7: a concrete stderr line is forwarded
verbatim to the host's stderr. -/
theorem C7_amended_forwarding_witness :
    forwardEvents [CommandEvent.stderrLine "boot ok"] =
      [(HostStream.stderr, "boot ok")] ∧
    (HostStream.stderr, "boot ok").1 = HostStream.stderr := by
  have h := C7_amended_forwarding "boot ok" []
  refine ⟨by rw [h.1]; simp [forwardEvents], ?_⟩
  exact h.2.2.2 [CommandEvent.stderrLine "boot ok"] _ (by simp [forwardEvents])

/-- C8: when spawning the sidecar fails, the error is logged, the host
continues (setup still returns a state and spawns the readiness thread),
the slot remains empty, and the readiness poller may still navigate — an
externally-started server on the port is adopted. -/
theorem C8_spawn_failure_continues (senv : SpawnEnv) (e : String)
    (env : PollEnv) (nenv : NavEnv)
    (hspawn : senv.spawnResult = Except.error e) :
    (setup senv).slot = none ∧
    ("[vwork] Failed to spawn sidecar: " ++ e) ∈ (setup senv).logs ∧
    (setup senv).readinessThreads = 1 ∧
    ((wait_for_server env DEFAULT_PORT defaultTimeoutMs).result =
        Except.ok () →
      nenv.windowExists = true →
      (readinessThread env nenv).navigations = [navUrl DEFAULT_PORT]) := by
  refine ⟨by simp [setup, hspawn], by simp [setup, hspawn],
    by simp [setup, hspawn], ?_⟩
  intro hres hw
  simp [readinessThread, hres, hw]

/-- Witness for C8: a failed spawn leaves the slot empty while the
readiness thread, seeing an externally-started ready server, navigates. -/
theorem C8_spawn_failure_continues_witness :
    (setup ⟨Except.error "boom"⟩).slot = none ∧
    (readinessThread envOkNow ⟨true, false⟩).navigations =
      [navUrl DEFAULT_PORT] := by
  have h := C8_spawn_failure_continues ⟨Except.error "boom"⟩ "boom"
    envOkNow ⟨true, false⟩ rfl
  exact ⟨h.1, h.2.2.2 envOkNow_ready rfl⟩

/-- C9 counterexample: after readiness, with the main window missing, the
readiness thread logs only "Server is ready!" — the navigator failure is
silently skipped, not logged. -/
theorem C9_counterexample_silent_window_missing :
    readinessThread envOkNow { windowExists := false, navigateFails := false } =
      { logs := ["[vwork] Server is ready!"], navigations := [],
        panicked := false } := by
  simp [readinessThread, envOkNow_ready]

/-- C9 (amended): navigator failures are swallowed with no retry, no panic
and no effect on the host, but silently: a missing main window skips
navigation without any log line, and a navigate error is discarded by
`let _ =` without any log line; the URL is the fixed valid string
`navUrl DEFAULT_PORT`, so the `parse().unwrap()` on this path cannot
panic. -/
theorem C9_amended_silent_swallow (env : PollEnv) (nenv : NavEnv) :
    (readinessThread env nenv).panicked = false ∧
    (readinessThread env nenv).logs.length = 1 ∧
    readinessThread env ⟨nenv.windowExists, true⟩ =
      readinessThread env ⟨nenv.windowExists, false⟩ ∧
    ((readinessThread env nenv).navigations = [] ∨
      (readinessThread env nenv).navigations = [navUrl DEFAULT_PORT]) := by
  cases hres : (wait_for_server env DEFAULT_PORT defaultTimeoutMs).result with
  | ok v =>
      cases v
      by_cases hw : nenv.windowExists = true <;>
        simp [readinessThread, hres, hw]
  | error m => simp [readinessThread, hres]

/-- C10 counterexample: on a slot holding child 0, the operation trace of
`kill_sidecar` sends the kill signal while the mutex is still held — the
guard is released only after `kill()` — refuting "releases the mutex before
sending the kill signal". -/
theorem C10_counterexample_lock_held :
    kill_sidecar_ops envKill (some 0) =
      [LockOp.lock, LockOp.takeChild, LockOp.killSignal 0, LockOp.unlock] ∧
    heldDuringKill (kill_sidecar_ops envKill (some 0)) 0 = true := by
  decide

/-- C10 (amended): the slot's mutex IS held across the kill: the critical
section takes the child out and invokes `kill()` before the guard is
released; no wait/reap is performed under the lock (the trace contains no
wait), and a call on an empty slot only locks, takes `None`, and unlocks. -/
theorem C10_amended_lock_across_kill (env : KillEnv) (c : Nat)
    (hlock : env.lockOk = true) :
    kill_sidecar_ops env (some c) =
      [LockOp.lock, LockOp.takeChild, LockOp.killSignal c, LockOp.unlock] ∧
    heldDuringKill (kill_sidecar_ops env (some c)) 0 = true ∧
    kill_sidecar_ops env none =
      [LockOp.lock, LockOp.takeChild, LockOp.unlock] := by
  simp [kill_sidecar_ops, hlock, heldDuringKill]

/-- Witness for the amended C10 at child 3. -/
theorem C10_amended_lock_across_kill_witness :
    kill_sidecar_ops envKill (some 3) =
      [LockOp.lock, LockOp.takeChild, LockOp.killSignal 3, LockOp.unlock] :=
  (C10_amended_lock_across_kill envKill 3 rfl).1

end VWork
